import Mathlib

/-!
Verification of the VQA SmartDoc backend (src/backend/vqa_api.py) against
its specification.  The Python handlers are shallowly embedded: JSON values
decoded by `response.json()` become an inductive `Json` type (numbers are
modelled as rationals), exceptions become `Except`, outbound HTTP calls
become explicit parameters describing the collaborator outcome, and each
handler returns both its result and a flag recording whether the external
collaborator was actually called.
-/

namespace VqaApi

/-- A JSON value as produced by Python `response.json()`.  Numbers are
modelled as rationals (Python distinguishes int and float; the claims under
study never depend on that distinction or on number formatting).  Object
field lists stand for Python dicts and are assumed to have unique keys, as
`json.loads` produces. -/
inductive Json where
  | null : Json
  | bool : Bool → Json
  | num : ℚ → Json
  | str : String → Json
  | arr : List Json → Json
  | obj : List (String × Json) → Json

/-- Python truthiness (`if response`) for JSON-decoded values: `None`,
`False`, `0`, `""`, `[]` and `\x7b\x7d` are falsy. -/
def Json.truthy : Json → Bool
  | .null => false
  | .bool b => b
  | .num q => decide (q ≠ 0)
  | .str s => decide (s ≠ "")
  | .arr xs => !xs.isEmpty
  | .obj fs => !fs.isEmpty

mutual

/-- Python `repr` of a JSON-decoded value, used by `str` on containers.
String quoting omits escaping and number formatting is approximated by the
rational printer; no claim under study depends on these renderings. -/
def pyRepr : Json → String
  | .null => "None"
  | .bool true => "True"
  | .bool false => "False"
  | .num q => toString q
  | .str s => "\x27" ++ s ++ "\x27"
  | .arr xs => "[" ++ pyReprList xs ++ "]"
  | .obj fs => "\x7b" ++ pyReprFields fs ++ "\x7d"

def pyReprList : List Json → String
  | [] => ""
  | [j] => pyRepr j
  | j :: rest => pyRepr j ++ ", " ++ pyReprList rest

def pyReprFields : List (String × Json) → String
  | [] => ""
  | [kv] => "\x27" ++ kv.1 ++ "\x27: " ++ pyRepr kv.2
  | kv :: rest => "\x27" ++ kv.1 ++ "\x27: " ++ pyRepr kv.2 ++ ", " ++ pyReprFields rest

end

/-- Python `str` of a JSON-decoded value: a string prints itself, anything
else prints as its `repr`. -/
def pyStr : Json → String
  | .str s => s
  | j => pyRepr j

/-- Python `x.get(key, default)`: succeeds on a dict, raises
`AttributeError` (modelled as `Except.error`) on any other value. -/
def pyGet (j : Json) (key : String) (dflt : Json) : Except Unit Json :=
  match j with
  | .obj fs => .ok ((fs.lookup key).getD dflt)
  | _ => .error ()

/-- The body of the `try:` block of `parse_vqa_response`
(src/backend/vqa_api.py lines 236-247).  The answer and confidence are
returned as the JSON values Python would bind (Python strings and floats
appear wrapped as `.str` / `.num`). -/
def parseVqaTry (response : Json) : Except Unit (Json × Json) :=
  match response with
  | .arr (answer_data :: _) => do
      let answer ← pyGet answer_data "answer" (.str "No answer provided")
      let confidence ← pyGet answer_data "score" (.num 0)
      return (answer, confidence)
  | .obj fs =>
      return ((fs.lookup "answer").getD (.str (pyStr (.obj fs))),
              (fs.lookup "score").getD (.num (1/2)))
  | j =>
      return (if j.truthy then .str (pyStr j) else .str "No answer provided",
              .num (1/2))

/-- `parse_vqa_response` (src/backend/vqa_api.py lines 233-250): runs the
`try:` body and converts any exception to the sentinel pair. -/
def parse_vqa_response (response : Json) : Json × Json :=
  match parseVqaTry response with
  | .ok r => r
  | .error _ => (.str "Error parsing response", .num 0)

/-- A raised FastAPI `HTTPException`, reduced to the two fields the code
sets: the HTTP status code and the `detail` message. -/
structure HTTPException where
  status_code : Nat
  detail : String
  deriving DecidableEq, Repr

/-- An upstream HTTP response as the code observes it: the status code, the
result of `response.json()` (`none` when the body does not decode as JSON)
and `response.text`. -/
structure HTTPResponse where
  status_code : Nat
  body : Option Json
  text : String

/-- The possible outcomes of the single `requests.post` call to the
inference collaborator: a response, a `requests.exceptions.Timeout`, or any
other `requests.exceptions.RequestException` carrying its `str(e)`. -/
inductive UpstreamOutcome where
  | response : HTTPResponse → UpstreamOutcome
  | timeout : UpstreamOutcome
  | requestExc : String → UpstreamOutcome

/-- The error detail extracted for a non-200/503/401 upstream status
(src/backend/vqa_api.py lines 220-225): `response.json().get("error",
response.text)`, falling back to `response.text` whenever `.json()` or
`.get` raises (the bare `except`). -/
def upstreamErrorDetail (r : HTTPResponse) : String :=
  match r.body with
  | some (.obj fs) =>
      match fs.lookup "error" with
      | some v => pyStr v
      | none => r.text
  | _ => r.text

/-- The `detail` of the 500 raised when `HUGGINGFACE_API_TOKEN` is unset. -/
def hfTokenMissingDetail : String :=
  "HuggingFace API token not configured. Set HUGGINGFACE_API_TOKEN environment variable."

/-- `query_huggingface_vqa` (src/backend/vqa_api.py lines 183-231).
`token` is `HUGGINGFACE_API_TOKEN`; `outcome` describes what the single
`requests.post` does when it is reached.  Returns the parsed JSON body or
the `HTTPException` raised, paired with whether the outbound call was
made.  The `HTTPException`s raised inside the `try:` are not
`RequestException`s, so the two `except` clauses do not intercept them.
In the 200 branch a JSON decode failure from `response.json()` is a
`RequestException` and lands in the final handler; its exception text is
approximated by `response.text` (no claim depends on that message). -/
def query_huggingface_vqa (token : Option String) (outcome : UpstreamOutcome) :
    Except HTTPException Json × Bool :=
  match token with
  | none => (.error ⟨500, hfTokenMissingDetail⟩, false)
  | some _ =>
    match outcome with
    | .timeout => (.error ⟨504, "Request timeout to HuggingFace API"⟩, true)
    | .requestExc msg => (.error ⟨500, "Request failed: " ++ msg⟩, true)
    | .response r =>
      if r.status_code = 200 then
        match r.body with
        | some j => (.ok j, true)
        | none => (.error ⟨500, "Request failed: " ++ r.text⟩, true)
      else if r.status_code = 503 then
        (.error ⟨503, "Model is loading, please try again in a few moments"⟩, true)
      else if r.status_code = 401 then
        (.error ⟨401, "Invalid HuggingFace API token"⟩, true)
      else
        (.error ⟨r.status_code,
          "HuggingFace API error: " ++ toString r.status_code ++ " - "
            ++ upstreamErrorDetail r⟩, true)

/-- Python `str.strip()` whitespace test, restricted to the ASCII
whitespace characters (the questions under study are ASCII). -/
def isPyWhitespace (c : Char) : Bool :=
  c = ' ' || c = '\t' || c = '\n' || c = '\r' || c = '\x0b' || c = '\x0c'

/-- Python `s.strip()`: drop leading and trailing whitespace. -/
def pyStrip (s : String) : String :=
  .mk (((s.data.dropWhile isPyWhitespace).reverse.dropWhile isPyWhitespace).reverse)

/-- A validated `VQARequest` as the handler receives it: `file_url` is the
pydantic `HttpUrl` viewed as its Python string. -/
structure VQARequest where
  file_url : String
  question : String
  deriving DecidableEq, Repr

/-- The `VQAResponse` record built on success.  `processing_time` is
wall-clock time and is not modelled; the `answer` and `confidence` fields
carry the JSON values Python binds (pydantic field coercion is the
identity on the string/float values produced by `parse_vqa_response` for
the payload shapes under study). -/
structure VQAResponse where
  success : Bool
  answer : Json
  confidence : Json
  file_url : String
  question : String

/-- Result of one `/ask/` invocation: the handler result and whether the
outbound inference call was made. -/
structure AskOutcome where
  result : Except HTTPException VQAResponse
  upstreamCalled : Bool

/-- `ask_question` (src/backend/vqa_api.py lines 323-370), for a request
that passed body validation.  The generic `except Exception` at the end is
unreachable in this model because `parse_vqa_response` swallows its own
exceptions and everything else raised is an `HTTPException`, re-raised
verbatim by `except HTTPException: raise`. -/
def ask_question (req : VQARequest) (token : Option String) (outcome : UpstreamOutcome) :
    AskOutcome :=
  if req.file_url = "" then
    ⟨.error ⟨400, "file_url is required"⟩, false⟩
  else if req.question = "" ∨ (pyStrip req.question).length < 3 then
    ⟨.error ⟨400, "Question must be at least 3 characters long"⟩, false⟩
  else
    match query_huggingface_vqa token outcome with
    | (.error e, called) => ⟨.error e, called⟩
    | (.ok j, called) =>
        let parsed := parse_vqa_response j
        ⟨.ok ⟨true, parsed.1, parsed.2, req.file_url, req.question⟩, called⟩

/-- The raw `/ask/` JSON body before pydantic validation: the `fileUrl`
and `question` fields, each possibly absent. -/
structure RawAskRequest where
  file_url : Option String
  question : Option String

/-- Whether the first list is an initial segment of the second. -/
def beginsWith : List Char → List Char → Bool
  | [], _ => true
  | _ :: _, [] => false
  | a :: as, b :: bs => a == b && beginsWith as bs

/-- Modelled from the spec: "fileUrl required and must be a syntactically
valid absolute URL".  The check itself is performed by the pydantic
`HttpUrl` field type of `VQARequest` (framework code, not part of this
repository): scheme `http` or `https` followed by a nonempty remainder,
with the overall length bounded by 2083. -/
def isValidHttpUrl (s : String) : Bool :=
  ((beginsWith "http://".data s.data && decide (7 < s.length)) ||
   (beginsWith "https://".data s.data && decide (8 < s.length))) && decide (s.length ≤ 2083)

/-- Modelled from the spec: FastAPI validates the request body against
`VQARequest` before the handler runs; a missing field or an invalid
`file_url` fails validation and the handler is never entered. -/
def validateVQARequest (raw : RawAskRequest) : Option VQARequest :=
  match raw.file_url, raw.question with
  | some u, some q => if isValidHttpUrl u then some ⟨u, q⟩ else none
  | _, _ => none

/-- The `/ask/` route as a whole: body validation (HTTP 422 on failure,
handler never entered) followed by `ask_question`. -/
def ask_route (raw : RawAskRequest) (token : Option String) (outcome : UpstreamOutcome) :
    AskOutcome :=
  match validateVQARequest raw with
  | none => ⟨.error ⟨422, "Validation error"⟩, false⟩
  | some req => ask_question req token outcome

/-- `MAX_FILE_SIZE` (src/backend/vqa_api.py line 64): 10 MiB. -/
def MAX_FILE_SIZE : Nat := 10 * 1024 * 1024

/-- `ALLOWED_EXTENSIONS` (line 65).  The Python value is a set; only
membership is observable in the checks, and the iteration order used in
the rejection message is fixed here to the order written in the source. -/
def ALLOWED_EXTENSIONS : List String := [".jpg", ".jpeg", ".png", ".gif", ".pdf", ".webp"]

/-- Index of the last occurrence of `c` in `cs`, if any. -/
def lastIndexOf (cs : List Char) (c : Char) : Option Nat :=
  cs.enum.foldl (fun acc p => if p.2 = c then some p.1 else acc) none

/-- `os.path.splitext` for POSIX paths: split off the extension at the
last dot, provided that dot lies in the final path component and that
component has a non-dot character somewhere before it (leading dots, as in
`.bashrc`, do not start an extension). -/
def splitext (p : String) : String × String :=
  let cs := p.data
  match lastIndexOf cs '.' with
  | none => (p, "")
  | some dotIndex =>
    let start : Nat :=
      match lastIndexOf cs '/' with
      | none => 0
      | some sepIndex => sepIndex + 1
    if start ≤ dotIndex then
      if ((cs.drop start).take (dotIndex - start)).any (fun c => c != '.') then
        (.mk (cs.take dotIndex), .mk (cs.drop dotIndex))
      else (p, "")
    else (p, "")

/-- Python `str.lower()`, character by character (ASCII case folding, as
in the extensions under study). -/
def pyLower (s : String) : String :=
  .mk (s.data.map Char.toLower)

/-- `validate_file` (src/backend/vqa_api.py lines 137-147) on
`file.filename` (`none` when the part has no filename; the empty string is
also falsy in `if not file.filename`). -/
def validate_file (filename : Option String) : Bool × String :=
  match filename with
  | none => (false, "No filename provided")
  | some f =>
    if f = "" then (false, "No filename provided")
    else
      let file_ext := pyLower (splitext f).2
      if file_ext ∈ ALLOWED_EXTENSIONS then (true, "Valid file")
      else (false, "Unsupported file type. Allowed: " ++ String.intercalate ", " ALLOWED_EXTENSIONS)

/-- The kind of exception raised by `cloudinary.uploader.upload`, recorded
so that the failure-mapping claim can be stated; the code itself only ever
reads `str(e)`, carried as the message. -/
inductive PyExcKind where
  | resourceMissing : PyExcKind
  | permissionDenied : PyExcKind
  | otherExc : PyExcKind
  deriving DecidableEq, Repr

/-- Outcome of the `cloudinary.uploader.upload` call when it is reached:
a result dict, of which the code reads `upload_result.get("secure_url")`
(possibly absent), or a raised exception. -/
inductive CloudinaryOutcome where
  | uploaded : Option String → CloudinaryOutcome
  | raised : PyExcKind → String → CloudinaryOutcome

/-- The `detail` of the 500 raised by `init_cloudinary` when any of the
three Cloudinary environment variables is unset. -/
def configMissingDetail : String :=
  "Cloudinary not configured. Set CLOUDINARY_CLOUD_NAME, CLOUDINARY_API_KEY, and CLOUDINARY_API_SECRET environment variables."

/-- `upload_to_cloudinary` (lines 155-181) composed with `init_cloudinary`
(lines 68-85).  `cloudinaryConfigured` states that all three environment
variables are set; `cloudinary.config(...)` itself only stores them and
does not raise.  Returns the secure URL or the `HTTPException` raised,
paired with whether the collaborator upload call was made.  The
`init_cloudinary` exception is raised before the `try:`, so it escapes
with its own message; every exception arising inside the `try:` — the
collaborator exceptions as well as the inner
`HTTPException(500, "Failed to get Cloudinary URL from upload result")`,
which `str()`s as `"<status>: <detail>"` — is caught by the blanket
`except Exception` and re-raised as a single
`"Cloudinary upload failed: <message>"` 500. -/
def upload_to_cloudinary (cloudinaryConfigured : Bool) (collab : CloudinaryOutcome) :
    Except HTTPException String × Bool :=
  if !cloudinaryConfigured then (.error ⟨500, configMissingDetail⟩, false)
  else
    match collab with
    | .uploaded (some url) => (.ok url, true)
    | .uploaded none =>
        (.error ⟨500,
          "Cloudinary upload failed: 500: Failed to get Cloudinary URL from upload result"⟩, true)
    | .raised _ msg => (.error ⟨500, "Cloudinary upload failed: " ++ msg⟩, true)

/-- Round half to even of `num / den`, approximating with exact rational
arithmetic the rounding Python applies when formatting a float with one
decimal place. -/
def roundHalfEven (num den : Nat) : Nat :=
  let q := num / den
  let r := num % den
  if 2 * r < den then q
  else if den < 2 * r then q + 1
  else if q % 2 = 0 then q else q + 1

/-- Rendering of a byte count divided by 1 MiB with one decimal place, as
the f-string in the 413 message does. -/
def mbOneDecimal (n : Nat) : String :=
  let t := roundHalfEven (n * 10) (1024 * 1024)
  toString (t / 10) ++ "." ++ toString (t % 10)

/-- The `UploadResponse` record built on success. -/
structure UploadResponse where
  success : Bool
  message : String
  file_url : String
  file_name : String
  file_size : Nat
  upload_id : String
  deriving DecidableEq, Repr

/-- Result of one `/upload/` invocation: the handler result and whether
the storage collaborator was called. -/
structure UploadOutcome where
  result : Except HTTPException UploadResponse
  storageCalled : Bool

/-- `upload_file` (src/backend/vqa_api.py lines 269-316).  `filename` is
`file.filename`; `contentLength` is `len(file_content)` with the body
fully read (the bytes themselves are only forwarded opaquely to the
collaborator, whose behaviour is the `collab` parameter); `upload_id` is
the fresh `uuid4` string.  The size check at line 287 precedes the
empty-body check at line 293, as here. -/
def upload_file (cloudinaryConfigured : Bool) (filename : Option String)
    (contentLength : Nat) (collab : CloudinaryOutcome) (upload_id : String) :
    UploadOutcome :=
  let v := validate_file filename
  if !v.1 then ⟨.error ⟨400, v.2⟩, false⟩
  else if MAX_FILE_SIZE < contentLength then
    ⟨.error ⟨413, "File too large (" ++ mbOneDecimal contentLength
        ++ "MB). Maximum size: " ++ mbOneDecimal MAX_FILE_SIZE ++ "MB"⟩, false⟩
  else if contentLength = 0 then
    ⟨.error ⟨400, "Empty file provided"⟩, false⟩
  else
    match upload_to_cloudinary cloudinaryConfigured collab with
    | (.error e, called) => ⟨.error e, called⟩
    | (.ok url, called) =>
        ⟨.ok ⟨true, "File uploaded successfully to Cloudinary", url,
            filename.getD "", contentLength, upload_id⟩, called⟩

end VqaApi

namespace VqaApi

/-- C1 example payload check. -/
example :
    parse_vqa_response (.arr [.obj [("answer", .str "cat"), ("score", .num (92/100))]]) =
      (.str "cat", .num (92/100)) := rfl

example : parse_vqa_response (.obj [("answer", .str "dog")]) = (.str "dog", .num (1/2)) := rfl

example : parse_vqa_response (.arr []) = (.str "No answer provided", .num (1/2)) := rfl

example : parse_vqa_response .null = (.str "No answer provided", .num (1/2)) := rfl

example : parse_vqa_response (.arr [.str "x"]) = (.str "Error parsing response", .num 0) := rfl

example : splitext "doc.jpg" = ("doc", ".jpg") := by decide

example : splitext "archive.tar.gz" = ("archive.tar", ".gz") := by decide

example : splitext ".bashrc" = (".bashrc", "") := by decide

example : splitext "a/.b" = ("a/.b", "") := by decide

example : (validate_file (some "photo.JPG")).1 = true := by decide

example : (validate_file (some "evil.exe")).1 = false := by decide

/-- Helper: once a token is configured, the outbound inference call is
always made, whatever its outcome. -/
theorem query_snd_eq_true (tok : String) (outcome : UpstreamOutcome) :
    (query_huggingface_vqa (some tok) outcome).2 = true := by
  rcases outcome with r | _ | m
  · simp only [query_huggingface_vqa]
    split_ifs
    · cases r.body <;> rfl
    · rfl
    · rfl
    · rfl
  · rfl
  · rfl

/-- Helper: for a request that passes both in-handler validations, the
outbound-call flag of `ask_question` is the one recorded by
`query_huggingface_vqa`. -/
theorem ask_called_eq (req : VQARequest) (token : Option String) (o : UpstreamOutcome)
    (hurl : ¬req.file_url = "")
    (hq : ¬(req.question = "" ∨ (pyStrip req.question).length < 3)) :
    (ask_question req token o).upstreamCalled = (query_huggingface_vqa token o).2 := by
  simp only [ask_question, if_neg hurl, if_neg hq]
  rcases hres : query_huggingface_vqa token o with ⟨res, called⟩
  cases res <;> rfl

/-- Helper: every error escaping `upload_to_cloudinary` carries status
500. -/
theorem upload_to_cloudinary_error_status (cfg : Bool) (collab : CloudinaryOutcome)
    (e : HTTPException) (h : (upload_to_cloudinary cfg collab).1 = .error e) :
    e.status_code = 500 := by
  cases cfg
  · simp only [upload_to_cloudinary, Bool.not_false, if_pos] at h
    injection h with h2
    rw [← h2]
  · rcases collab with u | ⟨k, m⟩
    · rcases u with _ | url
      · simp only [upload_to_cloudinary, Bool.not_true, if_neg] at h
        injection h with h2
        rw [← h2]
      · exact Except.noConfusion h
    · simp only [upload_to_cloudinary, Bool.not_true, if_neg] at h
      injection h with h2
      rw [← h2]

/-- C1: for every upstream payload that is a non-empty list whose first
element is an object, `parse_vqa_response` returns the first element's
`answer` and `score` fields, defaulting to "No answer provided" and 0.0
when absent; in particular the payload with answer "cat" and score 0.92
parses to answer "cat" with confidence 0.92. -/
theorem C1_parse_first_list_element (fields : List (String × Json)) (rest : List Json) :
    parse_vqa_response (.arr (.obj fields :: rest)) =
      ((fields.lookup "answer").getD (.str "No answer provided"),
       (fields.lookup "score").getD (.num 0)) ∧
    parse_vqa_response (.arr [.obj [("answer", .str "cat"), ("score", .num (92/100))]]) =
      (.str "cat", .num (92/100)) :=
  ⟨rfl, rfl⟩

/-- C3: for every upstream payload that is a single object with an
`answer` field but no `score` field, `parse_vqa_response` returns that
answer with confidence defaulted to 0.5. -/
theorem C3_single_object_default_score (fields : List (String × Json)) (a : Json)
    (hans : fields.lookup "answer" = some a) (hsc : fields.lookup "score" = none) :
    parse_vqa_response (.obj fields) = (a, .num (1/2)) := by
  have h : parse_vqa_response (.obj fields) =
      ((fields.lookup "answer").getD (.str (pyStr (.obj fields))),
       (fields.lookup "score").getD (.num (1/2))) := rfl
  rw [h, hans, hsc]
  rfl

/-- Witness for C3 at the payload of the spec example: an object mapping
`answer` to "dog" and carrying no `score`. -/
theorem C3_single_object_default_score_witness :
    parse_vqa_response (.obj [("answer", .str "dog")]) = (.str "dog", .num (1/2)) :=
  C3_single_object_default_score [("answer", .str "dog")] (.str "dog") rfl rfl

/-- Counterexample to C2 as stated: the empty-list payload parses to
confidence 0.5, not the claimed 0.0 (the `else` branch of
`parse_vqa_response` uses the 0.5 default; 0.0 only arises from the
exception handler). -/
theorem C2_empty_payload_counterexample :
    parse_vqa_response (.arr []) = (.str "No answer provided", .num (1/2)) ∧
    Json.num (1/2) ≠ Json.num 0 := by
  refine ⟨rfl, fun h => ?_⟩
  simp only [Json.num.injEq] at h
  norm_num at h

/-- C2 as amended: an empty payload (null, empty string or empty list)
parses to answer "No answer provided" with confidence 0.5 — not 0.0, which
is reserved for payloads whose parsing raises — and the VQA call is still
reported to the caller with success = true. -/
theorem C2_empty_payload_amended (req : VQARequest) (tok text : String)
    (hurl : ¬req.file_url = "") (hq : 3 ≤ (pyStrip req.question).length) :
    parse_vqa_response .null = (.str "No answer provided", .num (1/2)) ∧
    parse_vqa_response (.str "") = (.str "No answer provided", .num (1/2)) ∧
    parse_vqa_response (.arr []) = (.str "No answer provided", .num (1/2)) ∧
    (ask_question req (some tok) (.response ⟨200, some (.arr []), text⟩)).result =
      .ok ⟨true, .str "No answer provided", .num (1/2), req.file_url, req.question⟩ ∧
    ∀ j, parseVqaTry j = .error () →
      parse_vqa_response j = (.str "Error parsing response", .num 0) := by
  have hq2 : ¬(req.question = "" ∨ (pyStrip req.question).length < 3) := by
    rintro (h | h)
    · rw [h] at hq
      exact absurd hq (by decide)
    · omega
  refine ⟨rfl, rfl, rfl, ?_, fun j hj => by simp [parse_vqa_response, hj]⟩
  simp only [ask_question, if_neg hurl, if_neg hq2]
  rfl

/-- Witness for C2's amended theorem at a concrete valid request. -/
theorem C2_empty_payload_amended_witness :
    parse_vqa_response (.arr []) = (.str "No answer provided", .num (1/2)) ∧
    (ask_question ⟨"http://img.example", "What is this?"⟩ (some "tok")
        (.response ⟨200, some (.arr []), ""⟩)).result =
      .ok ⟨true, .str "No answer provided", .num (1/2), "http://img.example", "What is this?"⟩ ∧
    parse_vqa_response (.arr [.bool true]) = (.str "Error parsing response", .num 0) := by
  have h := C2_empty_payload_amended ⟨"http://img.example", "What is this?"⟩ "tok" ""
    (by decide) (by decide)
  exact ⟨h.2.2.1, h.2.2.2.1, h.2.2.2.2 (.arr [.bool true]) rfl⟩

/-- C4: any exception raised inside the `try:` of `parse_vqa_response` is
swallowed and converted to the pair ("Error parsing response", 0.0), and a
parse failure never reaches the caller as a request failure: on an
upstream 200 the handler still answers success = true with that sentinel
pair. -/
theorem C4_parse_exception_swallowed (j : Json) (hexc : parseVqaTry j = .error ()) :
    parse_vqa_response j = (.str "Error parsing response", .num 0) ∧
    ∀ (req : VQARequest) (tok text : String),
      ¬req.file_url = "" → ¬(req.question = "" ∨ (pyStrip req.question).length < 3) →
      (ask_question req (some tok) (.response ⟨200, some j, text⟩)).result =
        .ok ⟨true, .str "Error parsing response", .num 0, req.file_url, req.question⟩ := by
  have hparse : parse_vqa_response j = (.str "Error parsing response", .num 0) := by
    simp [parse_vqa_response, hexc]
  refine ⟨hparse, fun req tok text hurl hq => ?_⟩
  simp only [ask_question, if_neg hurl, if_neg hq]
  have hquery : query_huggingface_vqa (some tok) (.response ⟨200, some j, text⟩) = (.ok j, true) :=
    rfl
  rw [hquery]
  simp [hparse]

/-- Witness for C4 at a list payload whose first element is not an object,
so that `.get` raises `AttributeError` inside the `try:`. -/
theorem C4_parse_exception_swallowed_witness :
    parse_vqa_response (.arr [.str "x"]) = (.str "Error parsing response", .num 0) ∧
    (ask_question ⟨"http://img.example", "abc"⟩ (some "tok")
        (.response ⟨200, some (.arr [.str "x"]), ""⟩)).result =
      .ok ⟨true, .str "Error parsing response", .num 0, "http://img.example", "abc"⟩ := by
  have h := C4_parse_exception_swallowed (.arr [.str "x"]) rfl
  exact ⟨h.1, h.2 ⟨"http://img.example", "abc"⟩ "tok" "" (by decide) (by decide)⟩

/-- C5: translation of upstream inference responses: 200 hands the decoded
body to parsing; 503 surfaces as HTTP 503 with the model-loading message;
401 surfaces as HTTP 401; a request timeout surfaces as HTTP 504; every
other non-200 status surfaces as an error carrying that status code
together with the upstream error text or body. -/
theorem C5_hf_status_translation (tok : String) :
    (∀ (j : Json) (text : String),
        query_huggingface_vqa (some tok) (.response ⟨200, some j, text⟩) = (.ok j, true)) ∧
    (∀ (body : Option Json) (text : String),
        query_huggingface_vqa (some tok) (.response ⟨503, body, text⟩) =
          (.error ⟨503, "Model is loading, please try again in a few moments"⟩, true)) ∧
    (∀ (body : Option Json) (text : String),
        query_huggingface_vqa (some tok) (.response ⟨401, body, text⟩) =
          (.error ⟨401, "Invalid HuggingFace API token"⟩, true)) ∧
    query_huggingface_vqa (some tok) .timeout =
      (.error ⟨504, "Request timeout to HuggingFace API"⟩, true) ∧
    (∀ (s : Nat) (body : Option Json) (text : String),
        ¬s = 200 → ¬s = 503 → ¬s = 401 →
        query_huggingface_vqa (some tok) (.response ⟨s, body, text⟩) =
          (.error ⟨s, "HuggingFace API error: " ++ toString s ++ " - "
              ++ upstreamErrorDetail ⟨s, body, text⟩⟩, true)) := by
  refine ⟨fun j text => rfl, fun body text => rfl, fun body text => rfl, rfl, ?_⟩
  intro s body text h200 h503 h401
  simp only [query_huggingface_vqa, if_neg h200, if_neg h503, if_neg h401]

/-- Witness for C5 at a concrete non-200/503/401 status. -/
theorem C5_hf_status_translation_witness :
    query_huggingface_vqa (some "tok") (.response ⟨418, none, "teapot"⟩) =
      (.error ⟨418, "HuggingFace API error: " ++ toString 418 ++ " - "
          ++ upstreamErrorDetail ⟨418, none, "teapot"⟩⟩, true) :=
  (C5_hf_status_translation "tok").2.2.2.2 418 none "teapot" (by decide) (by decide) (by decide)

/-- C6: an upload whose filename has an extension outside the allow-list
(compared case-insensitively) is rejected with a 400 validation error and
the storage collaborator is never called. -/
theorem C6_bad_extension_rejected (filename : String) (cloudinaryConfigured : Bool)
    (contentLength : Nat) (collab : CloudinaryOutcome) (upload_id : String)
    (hext : pyLower (splitext filename).2 ∉ ALLOWED_EXTENSIONS) :
    (∃ e, (upload_file cloudinaryConfigured (some filename) contentLength collab
        upload_id).result = .error e ∧ e.status_code = 400) ∧
    (upload_file cloudinaryConfigured (some filename) contentLength collab
        upload_id).storageCalled = false := by
  have hval : (validate_file (some filename)).1 = false := by
    by_cases hf : filename = ""
    · simp [validate_file, hf]
    · simp [validate_file, hf, hext]
  constructor
  · refine ⟨⟨400, (validate_file (some filename)).2⟩, ?_, rfl⟩
    simp [upload_file, hval]
  · simp [upload_file, hval]

/-- Witness for C6 at the filename "evil.exe". -/
theorem C6_bad_extension_rejected_witness :
    (∃ e, (upload_file true (some "evil.exe") 5 (.uploaded (some "u")) "uid").result =
        .error e ∧ e.status_code = 400) ∧
    (upload_file true (some "evil.exe") 5 (.uploaded (some "u")) "uid").storageCalled = false :=
  C6_bad_extension_rejected "evil.exe" true 5 (.uploaded (some "u")) "uid" (by decide)

/-- C7: a VQA request whose question has trimmed length strictly below 3
is rejected with a 400 validation error before any outbound call to the
inference collaborator. -/
theorem C7_short_question_rejected (req : VQARequest) (token : Option String)
    (outcome : UpstreamOutcome) (hq : (pyStrip req.question).length < 3) :
    (∃ e, (ask_question req token outcome).result = .error e ∧ e.status_code = 400) ∧
    (ask_question req token outcome).upstreamCalled = false := by
  by_cases hurl : req.file_url = ""
  · exact ⟨⟨⟨400, "file_url is required"⟩, by simp [ask_question, hurl], rfl⟩,
      by simp [ask_question, hurl]⟩
  · have hcond : req.question = "" ∨ (pyStrip req.question).length < 3 := Or.inr hq
    exact ⟨⟨⟨400, "Question must be at least 3 characters long"⟩,
        by simp [ask_question, hurl, hcond], rfl⟩,
      by simp [ask_question, hurl, hcond]⟩

/-- Witness for C7 at the two-character question "hi". -/
theorem C7_short_question_rejected_witness :
    (∃ e, (ask_question ⟨"http://img.example", "hi"⟩ (some "tok") .timeout).result =
        .error e ∧ e.status_code = 400) ∧
    (ask_question ⟨"http://img.example", "hi"⟩ (some "tok") .timeout).upstreamCalled = false :=
  C7_short_question_rejected ⟨"http://img.example", "hi"⟩ (some "tok") .timeout (by decide)

/-- Counterexample to C8 as stated: a missing-resource exception and a
permission exception from the collaborator produce exactly the same error
as a generic exception with the same message — one uniform 500
"Cloudinary upload failed: ..." — so the code does not map them to the
distinct StorageUnavailable / StorageAccessDenied kinds the claim
describes. -/
theorem C8_storage_error_kinds_counterexample :
    upload_to_cloudinary true (.raised .resourceMissing "not found") =
      upload_to_cloudinary true (.raised .otherExc "not found") ∧
    upload_to_cloudinary true (.raised .permissionDenied "not found") =
      upload_to_cloudinary true (.raised .otherExc "not found") ∧
    upload_to_cloudinary true (.raised .otherExc "not found") =
      (.error ⟨500, "Cloudinary upload failed: not found"⟩, true) :=
  ⟨rfl, rfl, rfl⟩

/-- C8 as amended: absent storage configuration yields the distinct
configuration error (500, without calling the collaborator); every
collaborator exception — missing resource, permission failure or anything
else alike — yields the single StorageUploadFailed-style error, a 500
carrying the upstream message. -/
theorem C8_storage_failure_mapping (collab : CloudinaryOutcome) :
    upload_to_cloudinary false collab = (.error ⟨500, configMissingDetail⟩, false) ∧
    ∀ (k : PyExcKind) (msg : String),
      upload_to_cloudinary true (.raised k msg) =
        (.error ⟨500, "Cloudinary upload failed: " ++ msg⟩, true) :=
  ⟨rfl, fun _ _ => rfl⟩

/-- C9: a request whose fileUrl is absent or not a valid absolute HTTP(S)
URL fails body validation with HTTP 422 before the handler runs; and for
every request that passes validation the handler's own missing-file_url
branch can never produce its output (its 400 "file_url is required"
rejection is unreachable). -/
theorem C9_invalid_file_url_422 (raw : RawAskRequest) (token : Option String)
    (outcome : UpstreamOutcome)
    (hbad : raw.file_url = none ∨ ∀ u, raw.file_url = some u → isValidHttpUrl u = false) :
    ask_route raw token outcome = ⟨.error ⟨422, "Validation error"⟩, false⟩ ∧
    ∀ (req : VQARequest) (t : Option String) (o : UpstreamOutcome) (raw2 : RawAskRequest),
      validateVQARequest raw2 = some req →
      ¬req.file_url = "" ∧
      ask_question req t o ≠ ⟨.error ⟨400, "file_url is required"⟩, false⟩ := by
  constructor
  · have hnone : validateVQARequest raw = none := by
      rcases hu : raw.file_url with _ | u
      · simp [validateVQARequest, hu]
      · rcases hq : raw.question with _ | q
        · simp [validateVQARequest, hu, hq]
        · have hinv : isValidHttpUrl u = false := by
            rcases hbad with h | h
            · rw [h] at hu
              exact Option.noConfusion hu
            · exact h u hu
          simp [validateVQARequest, hu, hq, hinv]
    simp [ask_route, hnone]
  · intro req t o raw2 hok
    have hvalid : isValidHttpUrl req.file_url = true := by
      rcases hu : raw2.file_url with _ | u <;> rcases hq : raw2.question with _ | q <;>
        simp [validateVQARequest, hu, hq] at hok
      rcases hok with ⟨hv, hr⟩
      rw [← hr]
      exact hv
    have hurl : ¬req.file_url = "" := by
      intro h
      rw [h] at hvalid
      exact absurd hvalid (by decide)
    refine ⟨hurl, fun heq => ?_⟩
    by_cases hq : req.question = "" ∨ (pyStrip req.question).length < 3
    · rw [ask_question, if_neg hurl, if_pos hq] at heq
      have : "Question must be at least 3 characters long" = "file_url is required" := by
        have h1 := congrArg AskOutcome.result heq
        simp only [Except.error.injEq, HTTPException.mk.injEq] at h1
        exact h1.2
      exact absurd this (by decide)
    · rcases t with _ | tok
      · rw [ask_question, if_neg hurl, if_neg hq] at heq
        have h1 := congrArg AskOutcome.result heq
        have h2 : query_huggingface_vqa none o = (.error ⟨500, hfTokenMissingDetail⟩, false) :=
          rfl
        rw [h2] at h1
        simp only [Except.error.injEq, HTTPException.mk.injEq] at h1
        omega
      · have h1 := ask_called_eq req (some tok) o hurl hq
        rw [heq, query_snd_eq_true tok o] at h1
        exact Bool.false_ne_true h1

/-- Witness for C9: the non-URL string "notaurl" is rejected with 422, and
a validated request with fileUrl "http://img.example" can never produce
the missing-file_url rejection. -/
theorem C9_invalid_file_url_422_witness :
    ask_route ⟨some "notaurl", some "abc"⟩ none .timeout =
      ⟨.error ⟨422, "Validation error"⟩, false⟩ ∧
    (¬("http://img.example" : String) = "" ∧
      ask_question ⟨"http://img.example", "ab"⟩ none .timeout ≠
        ⟨.error ⟨400, "file_url is required"⟩, false⟩) := by
  have h := C9_invalid_file_url_422 ⟨some "notaurl", some "abc"⟩ none .timeout
    (Or.inr fun u hu => by
      injection hu with h2
      rw [← h2]
      decide)
  exact ⟨h.1, h.2 ⟨"http://img.example", "ab"⟩ none .timeout
    ⟨some "http://img.example", some "ab"⟩ rfl⟩

/-- C10: the size limit is a strict inequality on the fully read body
length: a body of exactly 10 MiB passes the size check and is uploaded —
on collaborator success the full UploadResponse is returned — and a 413
rejection occurs only for bodies strictly longer than 10 MiB. -/
theorem C10_size_limit_strict :
    (∀ (collab : CloudinaryOutcome) (uid : String),
        (upload_file true (some "doc.jpg") MAX_FILE_SIZE collab uid).storageCalled = true) ∧
    (∀ (url uid : String),
        (upload_file true (some "doc.jpg") MAX_FILE_SIZE (.uploaded (some url)) uid).result =
          .ok ⟨true, "File uploaded successfully to Cloudinary", url, "doc.jpg",
            MAX_FILE_SIZE, uid⟩) ∧
    (∀ (cfg : Bool) (fn : Option String) (n : Nat) (collab : CloudinaryOutcome)
        (uid : String) (e : HTTPException),
        (upload_file cfg fn n collab uid).result = .error e → e.status_code = 413 →
        MAX_FILE_SIZE < n) := by
  refine ⟨?_, ?_, ?_⟩
  · intro collab uid
    rcases collab with u | ⟨k, m⟩
    · rcases u with _ | url <;> rfl
    · rfl
  · intro url uid
    rfl
  · intro cfg fn n collab uid e heq h413
    by_cases hsz : MAX_FILE_SIZE < n
    · exact hsz
    · exfalso
      rcases hv : validate_file fn with ⟨valid, msg⟩
      rcases valid
      · rw [upload_file, hv] at heq
        simp only [Bool.not_false, if_pos] at heq
        injection heq with h2
        rw [← h2] at h413
        simp at h413
      · by_cases hz : n = 0
        · rw [upload_file, hv] at heq
          simp only [Bool.not_true, Bool.false_eq_true, if_false, if_neg hsz, if_pos hz] at heq
          injection heq with h2
          rw [← h2] at h413
          simp at h413
        · rw [upload_file, hv] at heq
          simp only [Bool.not_true, Bool.false_eq_true, if_false, if_neg hsz, if_neg hz] at heq
          rcases hc : upload_to_cloudinary cfg collab with ⟨res, called⟩
          rw [hc] at heq
          rcases res with e2 | url2
          · simp only [] at heq
            injection heq with h2
            have h500 : e2.status_code = 500 := by
              apply upload_to_cloudinary_error_status cfg collab
              rw [hc, h2]
            rw [h2] at h500
            rw [h500] at h413
            exact absurd h413 (by decide)
          · exact Except.noConfusion heq

/-- Witness for C10: a 10 MiB body is uploaded with its exact size, and
the theorem applied at a body one byte over the limit, where the handler
does answer 413, recovers the strict bound. -/
theorem C10_size_limit_strict_witness :
    (upload_file true (some "doc.jpg") MAX_FILE_SIZE (.uploaded (some "https://cdn.example/x"))
        "uid").result =
      .ok ⟨true, "File uploaded successfully to Cloudinary", "https://cdn.example/x", "doc.jpg",
        MAX_FILE_SIZE, "uid"⟩ ∧
    MAX_FILE_SIZE < MAX_FILE_SIZE + 1 := by
  refine ⟨C10_size_limit_strict.2.1 "https://cdn.example/x" "uid", ?_⟩
  exact C10_size_limit_strict.2.2 true (some "doc.jpg") (MAX_FILE_SIZE + 1)
    (.uploaded (some "u")) "uid"
    ⟨413, "File too large (" ++ mbOneDecimal (MAX_FILE_SIZE + 1)
        ++ "MB). Maximum size: " ++ mbOneDecimal MAX_FILE_SIZE ++ "MB"⟩
    rfl rfl

end VqaApi
